import Mathlib

/-!
Verification of the timeline & playback-synchronization engine of a
non-linear audio/video editor (source: `src/App.tsx`, types in
`src/index.tsx`).  Times are modelled as exact rationals; the source's
`number` arithmetic on time values is quantized to 1e-4 s by `roundTime`,
so rationals are a faithful carrier for the quantities the properties
speak about.  JavaScript `Math.round` is `⌊x + 1/2⌋`, which is exactly
Mathlib's `round` on `ℚ`.
-/

namespace VideoEditor

/-- Source: `src/index.tsx`: `blendMode: 'normal' | 'screen' | 'multiply' | 'overlay' | 'darken' | 'lighten'`. -/
inductive BlendMode
  | normal | screen | multiply | overlay | darken | lighten
  deriving DecidableEq

/-- Source: `src/index.tsx`: `filterPreset: 'none' | 'grayscale' | 'sepia' | 'vintage' | 'cyberpunk' | 'warm' | 'cool' | 'drama'`. -/
inductive FilterPreset
  | none | grayscale | sepia | vintage | cyberpunk | warm | cool | drama
  deriving DecidableEq

/-- Source: `src/index.tsx`: `fadeCurve: 'linear' | 'smooth' | 'buttery'`. -/
inductive FadeCurve
  | linear | smooth | buttery
  deriving DecidableEq

/-- Source: `src/index.tsx`: `type: 'video' | 'image' | 'text'`. -/
inductive ClipType
  | video | image | text
  deriving DecidableEq

/-- Source: `src/App.tsx`: `const [videoEditTool, ...] : 'move' | 'razor'`. -/
inductive EditTool
  | move | razor
  deriving DecidableEq

/-- Source: `src/index.tsx` interface `VideoClip`, field for field. -/
structure VideoClip where
  id : String
  name : String
  url : String
  type : ClipType
  originalDuration : ℚ
  width : ℚ
  height : ℚ
  duration : ℚ
  startTime : ℚ
  trimStart : ℚ
  trimEnd : ℚ
  opacity : ℚ
  scale : ℚ
  rotation : ℚ
  positionX : ℚ
  positionY : ℚ
  blendMode : BlendMode
  brightness : ℚ
  contrast : ℚ
  saturation : ℚ
  hueRotate : ℚ
  blur : ℚ
  filterPreset : FilterPreset
  fadeIn : ℚ
  fadeOut : ℚ
  fadeCurve : FadeCurve
  textContent : Option String
  fontSize : Option ℚ
  textColor : Option String
  fontFamily : Option String
  backgroundColor : Option String
  volume : ℚ
  speed : ℚ
  deriving DecidableEq

/-- Source: `src/index.tsx` interface `VideoTrack`. -/
structure VideoTrack where
  id : String
  name : String
  clips : List VideoClip
  isMuted : Bool
  isLocked : Bool
  deriving DecidableEq

/-- Source: `src/App.tsx` line 24: `const roundTime = (val) => Math.round(val * 10000) / 10000`
(`Math.round x = ⌊x + 1/2⌋ = round x` on exact rationals). -/
def roundTime (val : ℚ) : ℚ := (round (val * 10000) : ℚ) / 10000

/-- Source: `src/App.tsx` lines 38-46, `calculateFadeFactor`. -/
def calculateFadeFactor (t : ℚ) (type : FadeCurve) : ℚ :=
  if t ≤ 0 then 0
  else if t ≥ 1 then 1
  else
    if type = FadeCurve.linear then t
    else if type = FadeCurve.buttery then t * t * t * (t * (t * 6 - 15) + 10)
    else t * t * (3 - 2 * t)  -- default: smooth

/-- Source: `src/App.tsx` lines 483-492 (and identically 511-520): per-clip fade factor
at the current time.  The source's `clip.fadeCurve || 'smooth'` default is the
total field `fadeCurve` here (the field is always set). -/
def fadeFactorAt (clip : VideoClip) (currentVideoTime : ℚ) : ℚ :=
  let timeInClip := currentVideoTime - clip.startTime
  let timeFromEnd := (clip.startTime + clip.duration) - currentVideoTime
  let curveType := clip.fadeCurve
  if timeInClip < clip.fadeIn then
    calculateFadeFactor (timeInClip / clip.fadeIn) curveType
  else if timeFromEnd < clip.fadeOut then
    calculateFadeFactor (timeFromEnd / clip.fadeOut) curveType
  else 1

/-- Source: `src/App.tsx` lines 215-219: derived timeline extent.
`Math.max(60, ...xs) + 2` is `foldl max 60 xs + 2`; the source returns `60`
(with no `+ 2`) when there are no clips at all. -/
def maxTime (videoTracks timelineAudioTracks : List VideoTrack) : ℚ :=
  let allClips := (videoTracks ++ timelineAudioTracks).flatMap (·.clips)
  if allClips.length = 0 then 60
  else (allClips.foldl (fun m c => max m (c.startTime + c.duration)) 60) + 2

/-- The spec's formula for the timeline extent, written from its words:
"`max(60, max over all clips of startTime+duration) + 2` — a 2-second
trailing pad, with a 60-second floor" — with no special case for an empty
clip list. -/
def specMaxTime (videoTracks timelineAudioTracks : List VideoTrack) : ℚ :=
  let allClips := (videoTracks ++ timelineAudioTracks).flatMap (·.clips)
  (allClips.foldl (fun m c => max m (c.startTime + c.duration)) 60) + 2

/-- One entry of the video history.  The source stores
`JSON.stringify({videoTracks, timelineAudioTracks})`; `good` is a string that
parses back to that pair, `corrupt` is any string `JSON.parse` rejects
(carrying the message of the `SyntaxError` it throws). -/
inductive HistoryEntry
  | good (videoTracks timelineAudioTracks : List VideoTrack)
  | corrupt (err : String)

/-- Parsing (`JSON.parse`) of a stored history entry: the round-trip succeeds on a
`good` entry and throws (modelled as `Except.error`) on a `corrupt` one. -/
def parseHistoryEntry : HistoryEntry → Except String (List VideoTrack × List VideoTrack)
  | .good v a => .ok (v, a)
  | .corrupt e => .error e

/-- The React component state of `src/App.tsx` that the timeline engine
reads and writes (each field is one `useState` hook of the source). -/
structure EditorState where
  videoTracks : List VideoTrack
  timelineAudioTracks : List VideoTrack
  videoHistory : List HistoryEntry
  videoHistoryIndex : Nat
  selectedClipId : Option String
  currentVideoTime : ℚ
  draggingClipId : Option String
  dragStartX : ℚ
  dragOriginalStartTime : ℚ
  videoEditTool : EditTool
  isMagnetEnabled : Bool
  timelineScale : ℚ
  isScrubbing : Bool
  activeInspectorTab : String

/-- Source: `src/App.tsx` lines 257-267, `pushVideoHistory`: snapshot the current
pair of track collections, truncate the redo tail (`slice(0, index+1)`),
append, drop the oldest entry when the count exceeds 20 (`shift`), and move
the cursor to the new tail. -/
def pushVideoHistory (s : EditorState) : EditorState :=
  let state := HistoryEntry.good s.videoTracks s.timelineAudioTracks
  let newHistory := (s.videoHistory.take (s.videoHistoryIndex + 1)) ++ [state]
  let newHistory := if newHistory.length > 20 then newHistory.drop 1 else newHistory
  { s with videoHistory := newHistory, videoHistoryIndex := newHistory.length - 1 }

/-- Source: `src/App.tsx` lines 269-278, `handleVideoUndo`.  The source sets the new
index *before* `JSON.parse` runs; if the parse throws, the two track
collections are never written and the exception propagates (the second
component of the result).  `JSON.parse(undefined)` (index out of range)
also throws. -/
def handleVideoUndo (s : EditorState) : EditorState × Option String :=
  if 0 < s.videoHistoryIndex then
    let newIndex := s.videoHistoryIndex - 1
    let s1 := { s with videoHistoryIndex := newIndex }
    match s.videoHistory.get? newIndex with
    | some entry =>
      match parseHistoryEntry entry with
      | .ok (v, a) => ({ s1 with videoTracks := v, timelineAudioTracks := a }, none)
      | .error e => (s1, some e)
    | none => (s1, some "SyntaxError")
  else (s, none)

/-- Source: `src/App.tsx` lines 280-290, `handleVideoRedo`, symmetric to undo
(`currentIndex < history.length - 1`; on an empty history the JS comparison
`0 < -1` is false, as is `0 < 0 - 1` in `Nat`). -/
def handleVideoRedo (s : EditorState) : EditorState × Option String :=
  if s.videoHistoryIndex < s.videoHistory.length - 1 then
    let newIndex := s.videoHistoryIndex + 1
    let s1 := { s with videoHistoryIndex := newIndex }
    match s.videoHistory.get? newIndex with
    | some entry =>
      match parseHistoryEntry entry with
      | .ok (v, a) => ({ s1 with videoTracks := v, timelineAudioTracks := a }, none)
      | .error e => (s1, some e)
    | none => (s1, some "SyntaxError")
  else (s, none)

/-- Source: `src/App.tsx` lines 304-310, `handleDeleteClip`: push history, then
remove the clip with the selected id from both collections and clear the
selection; a no-op when nothing is selected. -/
def handleDeleteClip (s : EditorState) : EditorState :=
  match s.selectedClipId with
  | none => s
  | some sel =>
    let s := pushVideoHistory s
    { s with
      videoTracks := s.videoTracks.map fun t =>
        { t with clips := t.clips.filter fun c => c.id != sel },
      timelineAudioTracks := s.timelineAudioTracks.map fun t =>
        { t with clips := t.clips.filter fun c => c.id != sel },
      selectedClipId := none }

/-- The clipA/clipB construction duplicated at `src/App.tsx` lines 329-341
(`handleSplitAtPlayhead`) and lines 1036-1047 (razor branch of
`handleClipMouseDown`): the first half keeps the original id, the second
half gets `id + '_split_' + Date.now()` (`now` here). -/
def splitClip (clip : VideoClip) (splitTime : ℚ) (now : Nat) : VideoClip × VideoClip :=
  let clipA : VideoClip :=
    { clip with duration := splitTime, trimEnd := clip.trimStart + splitTime }
  let clipB : VideoClip :=
    { clip with
      startTime := clip.startTime + splitTime,
      trimStart := clip.trimStart + splitTime,
      duration := roundTime (clip.duration - splitTime),
      id := clip.id ++ "_split_" ++ toString now }
  (clipA, clipB)

/-- Source: `src/App.tsx` line 315: flatten both collections, tagging each clip with
its track id and whether the track is a timeline audio track
(`timelineAudioTracks.includes(t)` is reference equality in JS: true exactly
for the tracks coming from the audio array). -/
def allClipsTagged (videoTracks timelineAudioTracks : List VideoTrack) :
    List (VideoClip × String × Bool) :=
  (videoTracks.flatMap fun t => t.clips.map fun c => (c, t.id, false)) ++
  (timelineAudioTracks.flatMap fun t => t.clips.map fun c => (c, t.id, true))

/-- Source: `src/App.tsx` lines 312-350, `handleSplitAtPlayhead`.  `now` stands for
`Date.now()`. -/
def handleSplitAtPlayhead (now : Nat) (s : EditorState) : EditorState :=
  match s.selectedClipId with
  | none => s
  | some sel =>
    match (allClipsTagged s.videoTracks s.timelineAudioTracks).find?
        (fun x => x.1.id == sel) with
    | none => s
    | some (clip, trackId, isAudio) =>
      let relativeTime := roundTime (s.currentVideoTime - clip.startTime)
      if relativeTime < 1/10 ∨ clip.duration - relativeTime < 1/10 then s
      else
        let s := pushVideoHistory s
        let (clipA, clipB) := splitClip clip relativeTime now
        let updateTracks := fun (tracks : List VideoTrack) => tracks.map fun t =>
          if t.id ≠ trackId then t
          else { t with clips := (t.clips.map fun c => if c.id == clip.id then clipA else c) ++ [clipB] }
        if isAudio then { s with timelineAudioTracks := updateTracks s.timelineAudioTracks }
        else { s with videoTracks := updateTracks s.videoTracks }

/-- Source: `src/App.tsx` lines 982-989, `getTimelineTimeFromEvent`:
pixel-to-time conversion (`HEADER_WIDTH = 120`), clamped at 0 and quantized. -/
def getTimelineTimeFromEvent (rectLeft clientX timelineScale : ℚ) : ℚ :=
  let pixelX := clientX - rectLeft
  let contentX := pixelX - 120
  let time := max 0 (contentX / timelineScale)
  roundTime time

/-- Source: `src/App.tsx` lines 991-1022, `handleTrackDrop`.  `sourceClip` is the
parsed `dataTransfer` payload, `dropTime` the result of
`getTimelineTimeFromEvent(e)`, `now` stands for `Date.now()`.  Note: no
check of the destination track's `isLocked` flag and no magnet snapping
appear anywhere in this handler. -/
def handleTrackDrop (now : Nat) (sourceClip : VideoClip) (dropTime : ℚ)
    (trackId : String) (isAudioTrack : Bool) (s : EditorState) : EditorState :=
  let isTrackEmpty :=
    if isAudioTrack then
      match s.timelineAudioTracks.find? (fun t => t.id == trackId) with
      | some t => t.clips.length == 0
      | none => false
    else
      match s.videoTracks.find? (fun t => t.id == trackId) with
      | some t => t.clips.length == 0
      | none => false
  let finalTime := if isTrackEmpty then 0 else dropTime
  let newClip : VideoClip := { sourceClip with id := toString now, startTime := finalTime }
  let s := pushVideoHistory s
  if isAudioTrack then
    { s with timelineAudioTracks := s.timelineAudioTracks.map fun t =>
        if t.id == trackId then { t with clips := t.clips ++ [newClip] } else t }
  else
    { s with videoTracks := s.videoTracks.map fun t =>
        if t.id == trackId then { t with clips := t.clips ++ [newClip] } else t }

/-- Source: `src/App.tsx` lines 1024-1069, `handleClipMouseDown`.  With the razor
tool active it splits at the pointer position (same guard and clipA/clipB
construction as `handleSplitAtPlayhead`); otherwise it selects the clip and
begins a drag.  `clientX` is `e.clientX`, `rectLeft` the timeline
container's bounding-rect left, `now` stands for `Date.now()`.  Note: the
handler never reads the track's `isLocked` flag. -/
def handleClipMouseDown (now : Nat) (clientX rectLeft : ℚ) (clip : VideoClip)
    (trackId : String) (isAudioTrack : Bool) (s : EditorState) : EditorState :=
  if s.videoEditTool = EditTool.razor then
    let globalTime := getTimelineTimeFromEvent rectLeft clientX s.timelineScale
    let relativeTime := roundTime (globalTime - clip.startTime)
    if relativeTime < 1/10 ∨ clip.duration - relativeTime < 1/10 then s
    else
      let s := pushVideoHistory s
      let (clipA, clipB) := splitClip clip relativeTime now
      let updateTracks := fun (tracks : List VideoTrack) => tracks.map fun t =>
        if t.id ≠ trackId then t
        else { t with clips := (t.clips.map fun c => if c.id == clip.id then clipA else c) ++ [clipB] }
      if isAudioTrack then { s with timelineAudioTracks := updateTracks s.timelineAudioTracks }
      else { s with videoTracks := updateTracks s.videoTracks }
  else
    { s with
      selectedClipId := some clip.id,
      activeInspectorTab := if clip.type = ClipType.text then "text" else "props",
      draggingClipId := some clip.id,
      dragStartX := clientX,
      dragOriginalStartTime := clip.startTime }

/-- A `Partial<VideoClip>` (TypeScript): an arbitrary subset of fields to
merge, one optional slot per `VideoClip` field. -/
structure ClipUpdate where
  id : Option String := none
  name : Option String := none
  url : Option String := none
  type : Option ClipType := none
  originalDuration : Option ℚ := none
  width : Option ℚ := none
  height : Option ℚ := none
  duration : Option ℚ := none
  startTime : Option ℚ := none
  trimStart : Option ℚ := none
  trimEnd : Option ℚ := none
  opacity : Option ℚ := none
  scale : Option ℚ := none
  rotation : Option ℚ := none
  positionX : Option ℚ := none
  positionY : Option ℚ := none
  blendMode : Option BlendMode := none
  brightness : Option ℚ := none
  contrast : Option ℚ := none
  saturation : Option ℚ := none
  hueRotate : Option ℚ := none
  blur : Option ℚ := none
  filterPreset : Option FilterPreset := none
  fadeIn : Option ℚ := none
  fadeOut : Option ℚ := none
  fadeCurve : Option FadeCurve := none
  textContent : Option (Option String) := none
  fontSize : Option (Option ℚ) := none
  textColor : Option (Option String) := none
  fontFamily : Option (Option String) := none
  backgroundColor : Option (Option String) := none
  volume : Option ℚ := none
  speed : Option ℚ := none

/-- The JS object spread `{ ...c, ...updates }`: every field present in
`updates` replaces the clip's field, every absent field is kept. -/
def applyClipUpdate (c : VideoClip) (u : ClipUpdate) : VideoClip :=
  { id := u.id.getD c.id
    name := u.name.getD c.name
    url := u.url.getD c.url
    type := u.type.getD c.type
    originalDuration := u.originalDuration.getD c.originalDuration
    width := u.width.getD c.width
    height := u.height.getD c.height
    duration := u.duration.getD c.duration
    startTime := u.startTime.getD c.startTime
    trimStart := u.trimStart.getD c.trimStart
    trimEnd := u.trimEnd.getD c.trimEnd
    opacity := u.opacity.getD c.opacity
    scale := u.scale.getD c.scale
    rotation := u.rotation.getD c.rotation
    positionX := u.positionX.getD c.positionX
    positionY := u.positionY.getD c.positionY
    blendMode := u.blendMode.getD c.blendMode
    brightness := u.brightness.getD c.brightness
    contrast := u.contrast.getD c.contrast
    saturation := u.saturation.getD c.saturation
    hueRotate := u.hueRotate.getD c.hueRotate
    blur := u.blur.getD c.blur
    filterPreset := u.filterPreset.getD c.filterPreset
    fadeIn := u.fadeIn.getD c.fadeIn
    fadeOut := u.fadeOut.getD c.fadeOut
    fadeCurve := u.fadeCurve.getD c.fadeCurve
    textContent := u.textContent.getD c.textContent
    fontSize := u.fontSize.getD c.fontSize
    textColor := u.textColor.getD c.textColor
    fontFamily := u.fontFamily.getD c.fontFamily
    backgroundColor := u.backgroundColor.getD c.backgroundColor
    volume := u.volume.getD c.volume
    speed := u.speed.getD c.speed }

/-- Source: `src/App.tsx` lines 1085-1093, `updateSelectedClip`: merge the partial
update into the clip with the selected id across both collections.  The
source calls no `pushVideoHistory` here. -/
def updateSelectedClip (updates : ClipUpdate) (s : EditorState) : EditorState :=
  match s.selectedClipId with
  | none => s
  | some sel =>
    let applyUpdate := fun (tracks : List VideoTrack) => tracks.map fun t =>
      { t with clips := t.clips.map fun c =>
          if c.id == sel then applyClipUpdate c updates else c }
    { s with
      videoTracks := applyUpdate s.videoTracks,
      timelineAudioTracks := applyUpdate s.timelineAudioTracks }

/-- Source: `src/App.tsx` lines 1094-1098, `toggleTrackMute`: push history, then flip
the `isMuted` flag of the named track. -/
def toggleTrackMute (trackId : String) (isAudioTrack : Bool) (s : EditorState) :
    EditorState :=
  let s := pushVideoHistory s
  if isAudioTrack then
    { s with timelineAudioTracks := s.timelineAudioTracks.map fun t =>
        if t.id == trackId then { t with isMuted := !t.isMuted } else t }
  else
    { s with videoTracks := s.videoTracks.map fun t =>
        if t.id == trackId then { t with isMuted := !t.isMuted } else t }

/-- The loop body of the magnet-snap section of `handleTimelineMouseMove`
(`src/App.tsx` lines 1112-1116): skip the dragged clip itself; test the
clip's end boundary first, then its start boundary, each test comparing
against the *current* (possibly already snapped) value and overwriting it
on a hit. -/
def magnetSnapStep (draggingClipId : String) (snapThreshold : ℚ)
    (acc : ℚ) (other : VideoClip) : ℚ :=
  if other.id == draggingClipId then acc
  else
    let acc := if |acc - (other.startTime + other.duration)| < snapThreshold
               then other.startTime + other.duration else acc
    if |acc - other.startTime| < snapThreshold then other.startTime else acc

/-- The whole magnet-snap computation of `handleTimelineMouseMove`: the fold
of `magnetSnapStep` over all clips in iteration order, followed by the final
snap-to-0 (`if (newStartTime < snapThreshold) newStartTime = 0`). -/
def applyMagnetSnap (allClips : List VideoClip) (draggingClipId : String)
    (snapThreshold candidate : ℚ) : ℚ :=
  let snapped := allClips.foldl (magnetSnapStep draggingClipId snapThreshold) candidate
  if snapped < snapThreshold then 0 else snapped

/-- Source: `src/App.tsx` lines 1099-1124, `handleTimelineMouseMove`: scrubbing moves
the playhead; an active move-tool drag recomputes the dragged clip's
`startTime` from the pixel delta (quantized, clamped at 0, magnet-snapped
when enabled) and writes it into both collections, with no history push. -/
def handleTimelineMouseMove (clientX rectLeft : ℚ) (s : EditorState) : EditorState :=
  if s.isScrubbing then
    { s with currentVideoTime := getTimelineTimeFromEvent rectLeft clientX s.timelineScale }
  else
    match s.draggingClipId with
    | none => s
    | some dragId =>
      if s.videoEditTool ≠ EditTool.move then s
      else
        let deltaPixels := clientX - s.dragStartX
        let deltaSeconds := deltaPixels / s.timelineScale
        let newStartTime := s.dragOriginalStartTime + deltaSeconds
        let newStartTime := roundTime newStartTime
        let newStartTime := if newStartTime < 0 then 0 else newStartTime
        let newStartTime :=
          if s.isMagnetEnabled then
            applyMagnetSnap ((s.videoTracks ++ s.timelineAudioTracks).flatMap (·.clips))
              dragId (15 / s.timelineScale) newStartTime
          else newStartTime
        let updateClipInTracks := fun (tracks : List VideoTrack) => tracks.map fun t =>
          { t with clips := t.clips.map fun c =>
              if c.id == dragId then { c with startTime := newStartTime } else c }
        { s with
          videoTracks := updateClipInTracks s.videoTracks,
          timelineAudioTracks := updateClipInTracks s.timelineAudioTracks }

/-- Source: `src/App.tsx` lines 1125-1128, `handleTimelineMouseUp`: when a drag was
in progress, push a snapshot of the (already mutated, post-drag) state, then
end the drag and the scrub. -/
def handleTimelineMouseUp (s : EditorState) : EditorState :=
  let s := if s.draggingClipId.isSome then pushVideoHistory s else s
  { s with draggingClipId := none, isScrubbing := false }

/-- Interval test of the video path of `getAllActiveClips`
(`src/App.tsx` lines 430-433): look-ahead of 0.05 s on the lower bound only. -/
def videoClipActiveAt (currentVideoTime : ℚ) (c : VideoClip) : Bool :=
  let lookAhead : ℚ := 1/20
  decide (c.startTime ≤ currentVideoTime + lookAhead) &&
  decide (currentVideoTime < c.startTime + c.duration)

/-- Source: `src/App.tsx` lines 428-438, the video half of `getAllActiveClips`:
per track (skipping muted ones) `Array.find` picks the first clip whose
interval contains the current time; the result carries the track index.
The source's final sort by ascending `trackIndex` is the identity here
because the list is built in track order already. -/
def getVisibleClips : List VideoTrack → Nat → ℚ → List (VideoClip × VideoTrack × Nat)
  | [], _, _ => []
  | track :: rest, idx, t =>
    (if track.isMuted then []
     else
       match track.clips.find? (videoClipActiveAt t) with
       | some clip => [(clip, track, idx)]
       | none => []) ++ getVisibleClips rest (idx + 1) t

/-- Interval test of the audio path of `getAllActiveClips`
(`src/App.tsx` line 444): no look-ahead. -/
def audioClipActiveAt (currentVideoTime : ℚ) (c : VideoClip) : Bool :=
  decide (c.startTime ≤ currentVideoTime) &&
  decide (currentVideoTime < c.startTime + c.duration)

/-- Source: `src/App.tsx` lines 440-450, the audio half of `getAllActiveClips`:
walk the timeline audio tracks in order, skip muted tracks, and `break` on
the first track owning a clip whose interval contains the current time. -/
def getActiveAudioClip : List VideoTrack → ℚ → Option (VideoClip × VideoTrack)
  | [], _ => none
  | track :: rest, t =>
    if track.isMuted then getActiveAudioClip rest t
    else
      match track.clips.find? (audioClipActiveAt t) with
      | some clip => some (clip, track)
      | none => getActiveAudioClip rest t

/-- The spec's words for the audio lane, as a second definition to compare
against the code's `getActiveAudioClip`: "scan timeline audio tracks in
order and select the first track's clip (muted tracks skipped) whose
interval contains `currentTime`, without look-ahead". -/
def specAudioSelection (tracks : List VideoTrack) (t : ℚ) :
    Option (VideoClip × VideoTrack) :=
  (tracks.filter (fun tr => !tr.isMuted)).findSome? fun tr =>
    (tr.clips.find? (audioClipActiveAt t)).map fun c => (c, tr)

/-- Source: `src/App.tsx` lines 424-453, `getAllActiveClips`, assembled. -/
def getAllActiveClips (s : EditorState) :
    List (VideoClip × VideoTrack × Nat) × Option (VideoClip × VideoTrack) :=
  (getVisibleClips s.videoTracks 0 s.currentVideoTime,
   getActiveAudioClip s.timelineAudioTracks s.currentVideoTime)

/-! ### Concrete sample data for witnesses and counterexamples -/

/-- A representative media-backed clip (the default property values are the
ones `src/App.tsx` assigns to freshly imported clips). -/
def sampleClip : VideoClip :=
  { id := "c1", name := "clip.mp4", url := "blob:clip", type := ClipType.video
    originalDuration := 10, width := 1920, height := 1080
    duration := 2, startTime := 0, trimStart := 0, trimEnd := 2
    opacity := 100, scale := 100, rotation := 0, positionX := 0, positionY := 0
    blendMode := BlendMode.normal
    brightness := 100, contrast := 100, saturation := 100, hueRotate := 0, blur := 0
    filterPreset := FilterPreset.none
    fadeIn := 1, fadeOut := 1, fadeCurve := FadeCurve.smooth
    textContent := none, fontSize := none, textColor := none
    fontFamily := none, backgroundColor := none
    volume := 100, speed := 100 }

/-! ### Helper lemmas -/

/-- Quantization moves a value by at most half a tick, hence by at most
1e-4. -/
theorem abs_roundTime_sub_le (x : ℚ) : |roundTime x - x| ≤ 1 / 10000 := by
  have h : |x * 10000 - (round (x * 10000) : ℚ)| ≤ 1 / 2 := abs_sub_round (x * 10000)
  rw [abs_sub_comm] at h
  have heq : roundTime x - x = ((round (x * 10000) : ℚ) - x * 10000) / 10000 := by
    unfold roundTime; ring
  rw [heq, abs_div]
  rw [show |(10000 : ℚ)| = 10000 by norm_num]
  linarith

/-- Appending a non-empty suffix changes a string. -/
theorem append_suffix_ne (a b : String) (hb : b.length ≠ 0) : a ++ b ≠ a := by
  intro h
  have hlen := congrArg String.length h
  rw [String.length_append] at hlen
  omega

/-! ### C1 — Split produces two consistent fragments -/

/-- C1: for every clip and every valid quantized relative split time
(`0.1 ≤ relative` and `duration − relative ≥ 0.1`), the split produces
clip A with `duration = relative`, `trimEnd = trimStart + relative`, and
clip B with `startTime += relative`, `trimStart += relative`,
`duration = quantize(duration − relative)` and a fresh suffixed id; the
durations add up to the original within 1e-4, `clipA.trimEnd =
clipB.trimStart`, and clip A keeps the original id. -/
theorem split_valid_relative_correct (clip : VideoClip) (rel : ℚ) (now : Nat)
    (h1 : 1 / 10 ≤ rel) (h2 : 1 / 10 ≤ clip.duration - rel) :
    (splitClip clip rel now).1.duration = rel ∧
    (splitClip clip rel now).1.trimEnd = (splitClip clip rel now).1.trimStart + rel ∧
    (splitClip clip rel now).2.startTime = clip.startTime + rel ∧
    (splitClip clip rel now).2.trimStart = clip.trimStart + rel ∧
    (splitClip clip rel now).2.duration = roundTime (clip.duration - rel) ∧
    |(splitClip clip rel now).1.duration + (splitClip clip rel now).2.duration
      - clip.duration| ≤ 1 / 10000 ∧
    (splitClip clip rel now).1.trimEnd = (splitClip clip rel now).2.trimStart ∧
    (splitClip clip rel now).1.id = clip.id ∧
    (splitClip clip rel now).2.id ≠ clip.id := by
  refine ⟨rfl, rfl, rfl, rfl, rfl, ?_, rfl, rfl, ?_⟩
  · show |rel + roundTime (clip.duration - rel) - clip.duration| ≤ 1 / 10000
    have h := abs_roundTime_sub_le (clip.duration - rel)
    have heq : rel + roundTime (clip.duration - rel) - clip.duration
        = roundTime (clip.duration - rel) - (clip.duration - rel) := by ring
    rw [heq]; exact h
  · show clip.id ++ "_split_" ++ toString now ≠ clip.id
    have : clip.id ++ "_split_" ++ toString now
        = clip.id ++ ("_split_" ++ toString now) := by
      rw [String.append_assoc]
    rw [this]
    apply append_suffix_ne
    rw [String.length_append]
    have h7 : "_split_".length = 7 := rfl
    omega

/-- Witness for C1 at `clip = sampleClip` (duration 2), `relative = 1/2`. -/
theorem split_valid_relative_correct_witness :
    ((1 : ℚ) / 10 ≤ 1 / 2 ∧ (1 : ℚ) / 10 ≤ sampleClip.duration - 1 / 2) ∧
    ((splitClip sampleClip (1 / 2) 7).1.duration = 1 / 2 ∧
     (splitClip sampleClip (1 / 2) 7).1.trimEnd
       = (splitClip sampleClip (1 / 2) 7).1.trimStart + 1 / 2 ∧
     (splitClip sampleClip (1 / 2) 7).2.startTime = sampleClip.startTime + 1 / 2 ∧
     (splitClip sampleClip (1 / 2) 7).2.trimStart = sampleClip.trimStart + 1 / 2 ∧
     (splitClip sampleClip (1 / 2) 7).2.duration = roundTime (sampleClip.duration - 1 / 2) ∧
     |(splitClip sampleClip (1 / 2) 7).1.duration + (splitClip sampleClip (1 / 2) 7).2.duration
       - sampleClip.duration| ≤ 1 / 10000 ∧
     (splitClip sampleClip (1 / 2) 7).1.trimEnd = (splitClip sampleClip (1 / 2) 7).2.trimStart ∧
     (splitClip sampleClip (1 / 2) 7).1.id = sampleClip.id ∧
     (splitClip sampleClip (1 / 2) 7).2.id ≠ sampleClip.id) :=
  ⟨⟨by norm_num, by norm_num [sampleClip]⟩,
   split_valid_relative_correct sampleClip (1 / 2) 7 (by norm_num) (by norm_num [sampleClip])⟩

/-- A fully assembled editor state: one video track holding `sampleClip`
(selected), no timeline audio tracks, one initial history snapshot, the
playhead at 0.05 s, move tool, magnet on, 15 px/s scale. -/
def baseState : EditorState :=
  { videoTracks := [{ id := "v1", name := "Video 1", clips := [sampleClip],
                      isMuted := false, isLocked := false }]
    timelineAudioTracks := []
    videoHistory := [HistoryEntry.good
      [{ id := "v1", name := "Video 1", clips := [sampleClip],
         isMuted := false, isLocked := false }] []]
    videoHistoryIndex := 0
    selectedClipId := some "c1"
    currentVideoTime := 1 / 20
    draggingClipId := none
    dragStartX := 0
    dragOriginalStartTime := 0
    videoEditTool := EditTool.move
    isMagnetEnabled := true
    timelineScale := 15
    isScrubbing := false
    activeInspectorTab := "props" }

/-! ### C6 — derived timeline extent -/

/-- C6 counterexample: with no clips at all the code returns `60`, while the
claimed formula `max(60, …) + 2` yields `62`. -/
theorem maxTime_empty_counterexample :
    maxTime [] [] = 60 ∧ specMaxTime [] [] = 62 ∧ maxTime [] [] ≠ specMaxTime [] [] := by
  refine ⟨rfl, by norm_num [specMaxTime], ?_⟩
  intro h
  rw [show maxTime [] [] = 60 from rfl, show specMaxTime [] [] = 62 by norm_num [specMaxTime]] at h
  norm_num at h

/-- C6 amended: `maxTime` equals the spec's `max(60, max over all clips of
startTime+duration) + 2` whenever at least one clip exists, but is exactly
`60` (without the 2-second pad) when there are no clips at all. -/
theorem maxTime_characterization (v a : List VideoTrack) :
    maxTime v a =
      if ((v ++ a).flatMap (·.clips)).length = 0 then 60 else specMaxTime v a := by
  unfold maxTime specMaxTime
  rfl

/-! ### C7 — split fragment-length guard is a silent no-op -/

/-- C7: for both split entry points (`handleSplitAtPlayhead` and the razor
branch of `handleClipMouseDown`), a quantized relative split time with
`relative < 0.1` or `duration − relative < 0.1` leaves the whole editor
state — in particular every track's clip list — unchanged, and no exception
is raised (the operations are total functions returning the input state). -/
theorem split_guard_silent_noop (now : Nat) (s : EditorState) :
    (∀ sel clip trackId isAudio,
      s.selectedClipId = some sel →
      (allClipsTagged s.videoTracks s.timelineAudioTracks).find?
          (fun x => x.1.id == sel) = some (clip, trackId, isAudio) →
      (roundTime (s.currentVideoTime - clip.startTime) < 1 / 10 ∨
        clip.duration - roundTime (s.currentVideoTime - clip.startTime) < 1 / 10) →
      handleSplitAtPlayhead now s = s) ∧
    (∀ clientX rectLeft clip trackId isAudioTrack,
      s.videoEditTool = EditTool.razor →
      (roundTime (getTimelineTimeFromEvent rectLeft clientX s.timelineScale
          - clip.startTime) < 1 / 10 ∨
        clip.duration - roundTime (getTimelineTimeFromEvent rectLeft clientX s.timelineScale
          - clip.startTime) < 1 / 10) →
      handleClipMouseDown now clientX rectLeft clip trackId isAudioTrack s = s) := by
  constructor
  · intro sel clip trackId isAudio hsel hfind hguard
    unfold handleSplitAtPlayhead
    rw [hsel]
    simp only [hfind, if_pos hguard]
  · intro clientX rectLeft clip trackId isAudioTrack htool hguard
    unfold handleClipMouseDown
    rw [if_pos htool]
    simp only [if_pos hguard]

/-- Witness for C7: in `baseState` the playhead is at 0.05 s over the
selected clip starting at 0, so the quantized relative time 0.05 is below
the 0.1 s minimum and `handleSplitAtPlayhead` returns the state unchanged;
with the razor tool a click at the same spot is likewise refused. -/
theorem split_guard_silent_noop_witness :
    (baseState.selectedClipId = some "c1" ∧
     (allClipsTagged baseState.videoTracks baseState.timelineAudioTracks).find?
        (fun x => x.1.id == "c1") = some (sampleClip, "v1", false) ∧
     roundTime (baseState.currentVideoTime - sampleClip.startTime) < 1 / 10 ∧
     handleSplitAtPlayhead 3 baseState = baseState) ∧
    ({ baseState with videoEditTool := EditTool.razor }.videoEditTool = EditTool.razor ∧
     roundTime (getTimelineTimeFromEvent 0 120.75 baseState.timelineScale
        - sampleClip.startTime) < 1 / 10 ∧
     handleClipMouseDown 3 120.75 0 sampleClip "v1" false
        { baseState with videoEditTool := EditTool.razor }
      = { baseState with videoEditTool := EditTool.razor }) := by
  have hfind : (allClipsTagged baseState.videoTracks baseState.timelineAudioTracks).find?
      (fun x => x.1.id == "c1") = some (sampleClip, "v1", false) := by rfl
  have hrel : roundTime (baseState.currentVideoTime - sampleClip.startTime) < 1 / 10 := by
    norm_num [baseState, sampleClip, roundTime]
  have hrel2 : roundTime (getTimelineTimeFromEvent 0 120.75 baseState.timelineScale
      - sampleClip.startTime) < 1 / 10 := by
    norm_num [baseState, sampleClip, roundTime, getTimelineTimeFromEvent]
  exact ⟨⟨rfl, hfind, hrel,
      (split_guard_silent_noop 3 baseState).1 "c1" sampleClip "v1" false rfl hfind (Or.inl hrel)⟩,
    ⟨rfl, hrel2,
      (split_guard_silent_noop 3 { baseState with videoEditTool := EditTool.razor }).2
        120.75 0 sampleClip "v1" false rfl (Or.inl hrel2)⟩⟩

/-! ### C3 — locked tracks -/

/-- A track whose advisory `isLocked` flag is set, holding one clip. -/
def lockedTrack : VideoTrack :=
  { id := "v1", name := "Video 1", clips := [sampleClip], isMuted := false, isLocked := true }

/-- A copy of `baseState` with its only video track locked and the razor tool active. -/
def lockedState : EditorState :=
  { baseState with videoTracks := [lockedTrack], videoEditTool := EditTool.razor }

/-- C3 failing input: `handleClipMouseDown` never reads `isLocked`, so a
razor click at 1.0 s into the clip of a locked track splits it anyway — the
locked track's clip list grows from 1 to 2 clips (a mutation the spec says
must be refused).  The click at `clientX = 135` with the container at 0 and
a 15 px/s scale lands at timeline time `(135 − 120)/15 = 1`. -/
theorem locked_track_razor_split_mutates :
    lockedTrack.isLocked = true ∧
    lockedState.videoTracks.map (fun t => t.clips.length) = [1] ∧
    (handleClipMouseDown 9 135 0 sampleClip "v1" false lockedState).videoTracks.map
      (fun t => t.clips.length) = [2] ∧
    (handleTrackDrop 11 sampleClip 3 "v1" false lockedState).videoTracks.map
      (fun t => t.clips.length) = [2] := by
  refine ⟨rfl, rfl, ?_, ?_⟩
  · norm_num [handleClipMouseDown, lockedState, baseState, lockedTrack, sampleClip,
      getTimelineTimeFromEvent, roundTime, splitClip, pushVideoHistory]
  · norm_num [handleTrackDrop, lockedState, baseState, lockedTrack, sampleClip,
      pushVideoHistory]

/-! ### C8 — fade factor -/

/-- C8: the fade factor at current time `t` is
`curve(timeInClip/fadeIn)` when `timeInClip < fadeIn`, else
`curve(timeFromEnd/fadeOut)` when `timeFromEnd < fadeOut`, else 1; the
curves are `linear x = x`, `smooth x = 3x² − 2x³`,
`buttery x = 6x⁵ − 15x⁴ + 10x³`, clamped to 0 below 0 and to 1 above 1;
hence every curve is 0 at 0 and 1 at 1, and both smoothstep curves give 1/2
at 1/2. -/
theorem fade_factor_characterization :
    (∀ (clip : VideoClip) (t : ℚ), fadeFactorAt clip t =
      (if t - clip.startTime < clip.fadeIn then
        calculateFadeFactor ((t - clip.startTime) / clip.fadeIn) clip.fadeCurve
      else if (clip.startTime + clip.duration) - t < clip.fadeOut then
        calculateFadeFactor (((clip.startTime + clip.duration) - t) / clip.fadeOut)
          clip.fadeCurve
      else 1)) ∧
    (∀ (x : ℚ) (c : FadeCurve), calculateFadeFactor x c =
      if x ≤ 0 then 0
      else if 1 ≤ x then 1
      else match c with
        | FadeCurve.linear => x
        | FadeCurve.smooth => 3 * x ^ 2 - 2 * x ^ 3
        | FadeCurve.buttery => 6 * x ^ 5 - 15 * x ^ 4 + 10 * x ^ 3) ∧
    (∀ c, calculateFadeFactor 0 c = 0) ∧
    (∀ c, calculateFadeFactor 1 c = 1) ∧
    calculateFadeFactor (1 / 2) FadeCurve.smooth = 1 / 2 ∧
    calculateFadeFactor (1 / 2) FadeCurve.buttery = 1 / 2 := by
  refine ⟨fun clip t => rfl, ?_, fun c => rfl, fun c => rfl, ?_, ?_⟩
  · intro x c
    unfold calculateFadeFactor
    rcases c <;> simp only [reduceCtorEq, if_false, if_true] <;>
      split_ifs <;> first | rfl | ring
  · norm_num [calculateFadeFactor]
  · norm_num [calculateFadeFactor]

/-! ### C2 — history discipline of the edit operations -/

/-- After a push, the newest history entry is the snapshot of the state the
push saw (capping at 20 drops from the front, never the new tail). -/
theorem pushVideoHistory_getLast (s : EditorState) :
    (pushVideoHistory s).videoHistory.getLast? =
      some (HistoryEntry.good s.videoTracks s.timelineAudioTracks) := by
  unfold pushVideoHistory
  show (if ((s.videoHistory.take (s.videoHistoryIndex + 1)) ++
        [HistoryEntry.good s.videoTracks s.timelineAudioTracks]).length > 20
      then _ else _ : List HistoryEntry).getLast? = _
  split_ifs with h
  · rcases hl : s.videoHistory.take (s.videoHistoryIndex + 1) with _ | ⟨a, l⟩
    · rw [hl] at h; simp at h
    · simp only [List.cons_append, List.drop_succ_cons, List.drop_zero]
      rw [List.getLast?_append_cons]
      rfl
  · rw [List.getLast?_append_cons]
    rfl

/-- A `Partial<VideoClip>` that only changes the volume to 50. -/
def volumeUpdate50 : ClipUpdate := { volume := some 50 }

/-- C2 counterexample: in `baseState` (one selected clip with volume 100,
history `[initial]`, cursor 0) the Clip Editor property update
`updateSelectedClip { volume: 50 }` pushes no history snapshot at all, so a
single undo immediately afterwards is a no-op that leaves volume 50 — it
does not restore the pre-update timeline (volume 100). -/
theorem property_update_no_push_counterexample :
    (updateSelectedClip volumeUpdate50 baseState).videoHistory = baseState.videoHistory ∧
    (updateSelectedClip volumeUpdate50 baseState).videoHistoryIndex
      = baseState.videoHistoryIndex ∧
    baseState.videoTracks.map (fun t => t.clips.map (·.volume)) = [[100]] ∧
    (updateSelectedClip volumeUpdate50 baseState).videoTracks.map
      (fun t => t.clips.map (·.volume)) = [[50]] ∧
    (handleVideoUndo (updateSelectedClip volumeUpdate50 baseState)).1.videoTracks.map
      (fun t => t.clips.map (·.volume)) = [[50]] :=
  ⟨rfl, rfl, rfl, rfl, rfl⟩

/-- C2 amended: delete, mute-toggle, track drop and a valid split each push
a snapshot of the pre-mutation state before mutating, and a completed
move-drag pushes a snapshot (of the already mutated, post-drag state) on
mouse-up, while the live drag itself never pushes; the Clip Editor property
update pushes nothing and leaves the history cursor unchanged. -/
theorem structural_ops_push_history (s : EditorState) (sel : String)
    (hsel : s.selectedClipId = some sel) :
    (handleDeleteClip s).videoHistory.getLast? =
      some (HistoryEntry.good s.videoTracks s.timelineAudioTracks) ∧
    (∀ trackId isAudio, (toggleTrackMute trackId isAudio s).videoHistory.getLast? =
      some (HistoryEntry.good s.videoTracks s.timelineAudioTracks)) ∧
    (∀ now clip dropTime trackId isAudio,
      (handleTrackDrop now clip dropTime trackId isAudio s).videoHistory.getLast? =
        some (HistoryEntry.good s.videoTracks s.timelineAudioTracks)) ∧
    (∀ now clip trackId isAudio,
      (allClipsTagged s.videoTracks s.timelineAudioTracks).find?
          (fun x => x.1.id == sel) = some (clip, trackId, isAudio) →
      ¬(roundTime (s.currentVideoTime - clip.startTime) < 1 / 10 ∨
          clip.duration - roundTime (s.currentVideoTime - clip.startTime) < 1 / 10) →
      (handleSplitAtPlayhead now s).videoHistory.getLast? =
        some (HistoryEntry.good s.videoTracks s.timelineAudioTracks)) ∧
    (s.draggingClipId.isSome = true →
      (handleTimelineMouseUp s).videoHistory.getLast? =
        some (HistoryEntry.good s.videoTracks s.timelineAudioTracks)) ∧
    (∀ clientX rectLeft,
      (handleTimelineMouseMove clientX rectLeft s).videoHistory = s.videoHistory) ∧
    (∀ u, (updateSelectedClip u s).videoHistory = s.videoHistory ∧
      (updateSelectedClip u s).videoHistoryIndex = s.videoHistoryIndex) := by
  refine ⟨?_, ?_, ?_, ?_, ?_, ?_, ?_⟩
  · unfold handleDeleteClip
    rw [hsel]
    exact pushVideoHistory_getLast s
  · intro trackId isAudio
    unfold toggleTrackMute
    cases isAudio <;> exact pushVideoHistory_getLast s
  · intro now clip dropTime trackId isAudio
    unfold handleTrackDrop
    cases isAudio <;> exact pushVideoHistory_getLast s
  · intro now clip trackId isAudio hfind hguard
    unfold handleSplitAtPlayhead
    rw [hsel]
    simp only [hfind, if_neg hguard]
    cases isAudio <;> exact pushVideoHistory_getLast s
  · intro hdrag
    unfold handleTimelineMouseUp
    rw [if_pos hdrag]
    exact pushVideoHistory_getLast s
  · intro clientX rectLeft
    unfold handleTimelineMouseMove
    split
    · rfl
    · split
      · rfl
      · split
        · rfl
        · rfl
  · intro u
    unfold updateSelectedClip
    rw [hsel]
    exact ⟨rfl, rfl⟩

/-- Witness for C2's amended statement at `baseState` (delete, mute-toggle,
drop, move-up on a dragging state, and the property update). -/
theorem structural_ops_push_history_witness :
    baseState.selectedClipId = some "c1" ∧
    (handleDeleteClip baseState).videoHistory.getLast? =
      some (HistoryEntry.good baseState.videoTracks baseState.timelineAudioTracks) ∧
    (toggleTrackMute "v1" false baseState).videoHistory.getLast? =
      some (HistoryEntry.good baseState.videoTracks baseState.timelineAudioTracks) ∧
    (handleTrackDrop 5 sampleClip 3 "v1" false baseState).videoHistory.getLast? =
      some (HistoryEntry.good baseState.videoTracks baseState.timelineAudioTracks) ∧
    ((updateSelectedClip volumeUpdate50 baseState).videoHistory = baseState.videoHistory ∧
      (updateSelectedClip volumeUpdate50 baseState).videoHistoryIndex
        = baseState.videoHistoryIndex) :=
  ⟨rfl,
   (structural_ops_push_history baseState "c1" rfl).1,
   (structural_ops_push_history baseState "c1" rfl).2.1 "v1" false,
   (structural_ops_push_history baseState "c1" rfl).2.2.1 5 sampleClip 3 "v1" false,
   (structural_ops_push_history baseState "c1" rfl).2.2.2.2.2.2 volumeUpdate50⟩

/-! ### C4 — corrupt history snapshot on undo/redo -/

/-- C4 amended: when the snapshot targeted by undo (resp. redo) is corrupt,
the track collections are left untouched and the history list unchanged,
and the parse error is surfaced — but the history cursor has already been
decremented (resp. incremented) before the parse, so it is *not* left
untouched. -/
theorem undo_redo_corrupt_snapshot (s : EditorState) :
    (∀ e, 0 < s.videoHistoryIndex →
      s.videoHistory[s.videoHistoryIndex - 1]? = some (HistoryEntry.corrupt e) →
      (handleVideoUndo s).1.videoTracks = s.videoTracks ∧
      (handleVideoUndo s).1.timelineAudioTracks = s.timelineAudioTracks ∧
      (handleVideoUndo s).1.videoHistory = s.videoHistory ∧
      (handleVideoUndo s).1.videoHistoryIndex = s.videoHistoryIndex - 1 ∧
      (handleVideoUndo s).2 = some e) ∧
    (∀ e, s.videoHistoryIndex < s.videoHistory.length - 1 →
      s.videoHistory[s.videoHistoryIndex + 1]? = some (HistoryEntry.corrupt e) →
      (handleVideoRedo s).1.videoTracks = s.videoTracks ∧
      (handleVideoRedo s).1.timelineAudioTracks = s.timelineAudioTracks ∧
      (handleVideoRedo s).1.videoHistory = s.videoHistory ∧
      (handleVideoRedo s).1.videoHistoryIndex = s.videoHistoryIndex + 1 ∧
      (handleVideoRedo s).2 = some e) := by
  constructor
  · intro e hidx hget
    unfold handleVideoUndo
    rw [if_pos hidx]
    simp [hget, parseHistoryEntry]
  · intro e hidx hget
    unfold handleVideoRedo
    rw [if_pos hidx]
    simp [hget, parseHistoryEntry]

/-- A copy of `baseState` with a history whose undo and redo targets are both corrupt
entries, cursor at the good middle entry. -/
def corruptHistoryState : EditorState :=
  { baseState with
    videoHistory := [HistoryEntry.corrupt "bad0",
      HistoryEntry.good baseState.videoTracks [], HistoryEntry.corrupt "bad2"]
    videoHistoryIndex := 1 }

/-- C4 counterexample: undo onto a corrupt snapshot does abort the restore
and surfaces the error, but it does **not** leave all prior state untouched:
the history cursor index has already moved from 1 to 0. -/
theorem undo_corrupt_moves_cursor_counterexample :
    corruptHistoryState.videoHistoryIndex = 1 ∧
    (handleVideoUndo corruptHistoryState).2 = some "bad0" ∧
    (handleVideoUndo corruptHistoryState).1.videoTracks = corruptHistoryState.videoTracks ∧
    (handleVideoUndo corruptHistoryState).1.videoHistoryIndex = 0 :=
  ⟨rfl, rfl, rfl, rfl⟩

/-- Witness for C4's amended statement at `corruptHistoryState`, in both
directions (undo hits `corrupt "bad0"`, redo hits `corrupt "bad2"`). -/
theorem undo_redo_corrupt_snapshot_witness :
    (0 < corruptHistoryState.videoHistoryIndex ∧
     corruptHistoryState.videoHistory[corruptHistoryState.videoHistoryIndex - 1]?
       = some (HistoryEntry.corrupt "bad0") ∧
     (handleVideoUndo corruptHistoryState).1.videoTracks = corruptHistoryState.videoTracks ∧
     (handleVideoUndo corruptHistoryState).2 = some "bad0") ∧
    (corruptHistoryState.videoHistoryIndex < corruptHistoryState.videoHistory.length - 1 ∧
     corruptHistoryState.videoHistory[corruptHistoryState.videoHistoryIndex + 1]?
       = some (HistoryEntry.corrupt "bad2") ∧
     (handleVideoRedo corruptHistoryState).1.videoTracks = corruptHistoryState.videoTracks ∧
     (handleVideoRedo corruptHistoryState).2 = some "bad2") :=
  ⟨⟨by decide, rfl,
    ((undo_redo_corrupt_snapshot corruptHistoryState).1 "bad0" (by decide) rfl).1,
    ((undo_redo_corrupt_snapshot corruptHistoryState).1 "bad0" (by decide) rfl).2.2.2.2⟩,
   ⟨by decide, rfl,
    ((undo_redo_corrupt_snapshot corruptHistoryState).2 "bad2" (by decide) rfl).1,
    ((undo_redo_corrupt_snapshot corruptHistoryState).2 "bad2" (by decide) rfl).2.2.2.2⟩⟩

/-! ### C5 — drop onto a non-empty track -/

/-- Clip A occupying `[0, 5)` on the timeline. -/
def clipA5 : VideoClip :=
  { sampleClip with id := "A", startTime := 0, duration := 5, trimEnd := 5 }

/-- The scenario track: it holds exactly clip A at `[0,5)`. -/
def sceneTrack : VideoTrack :=
  { id := "v1", name := "Video 1", clips := [clipA5], isMuted := false, isLocked := false }

/-- The scenario state: one video track holding clip A at `[0,5)`, magnet
enabled, 5 px/s scale (so the move-tool snap threshold `15/scale = 3`
covers a gap of 2 seconds). -/
def dropScenarioState : EditorState :=
  { baseState with
    videoTracks := [sceneTrack]
    timelineScale := 5 }

/-- C5 counterexample: dropping clip B onto the non-empty track at requested
time 3 — with magnet enabled and the snap threshold `15/scale = 3` covering
the distance 2 to A's end — places B at `startTime = 3`, not at 5:
`handleTrackDrop` performs no magnet snapping at all. -/
theorem track_drop_no_snap_counterexample :
    dropScenarioState.isMagnetEnabled = true ∧
    (5 : ℚ) - 3 < 15 / dropScenarioState.timelineScale ∧
    ((handleTrackDrop 99 sampleClip 3 "v1" false dropScenarioState).videoTracks.map
      (fun t => t.clips.map (·.startTime))) = [[0, 3]] ∧
    (3 : ℚ) ≠ 5 := by
  refine ⟨rfl, ?_, rfl, by norm_num⟩
  norm_num [dropScenarioState, baseState]

/-- C5 amended: `handleTrackDrop` never applies magnet snapping; when the
destination track is non-empty the dropped clip is appended with the raw
computed drop time as its `startTime` (in the scenario, 3), and only when
the destination track has zero clips is `startTime` forced to 0. -/
theorem track_drop_uses_raw_drop_time (now : Nat) (sourceClip : VideoClip)
    (dropTime : ℚ) (trackId : String) (s : EditorState) (tr : VideoTrack)
    (hfind : s.videoTracks.find? (fun t => t.id == trackId) = some tr) :
    (handleTrackDrop now sourceClip dropTime trackId false s).videoTracks =
      s.videoTracks.map (fun t =>
        if t.id == trackId then
          { t with clips := t.clips ++
            [({ sourceClip with
                id := toString now
                startTime := if tr.clips.length == 0 then 0 else dropTime })] }
        else t) := by
  unfold handleTrackDrop
  simp only [Bool.false_eq_true, if_false, hfind]
  rw [show (pushVideoHistory s).videoTracks = s.videoTracks from rfl]

/-- Witness for C5's amended statement: the drop of the scenario lands at
the raw time 3 on the non-empty track. -/
theorem track_drop_uses_raw_drop_time_witness :
    dropScenarioState.videoTracks.find? (fun t => t.id == "v1") = some sceneTrack ∧
    (handleTrackDrop 99 sampleClip 3 "v1" false dropScenarioState).videoTracks =
      dropScenarioState.videoTracks.map (fun t =>
        if t.id == "v1" then
          { t with clips := t.clips ++
            [({ sampleClip with
                id := toString 99
                startTime :=
                  if sceneTrack.clips.length == 0 then 0 else 3 })] }
        else t) :=
  ⟨rfl, track_drop_uses_raw_drop_time 99 sampleClip 3 "v1" dropScenarioState _ rfl⟩

/-! ### C9 — the active-clip resolver -/

/-- Every entry of `getVisibleClips tracks idx t` carries a track index of at
least `idx`. -/
theorem getVisibleClips_index_ge :
    ∀ (tracks : List VideoTrack) (idx : Nat) (t : ℚ) x,
      x ∈ getVisibleClips tracks idx t → idx ≤ x.2.2 := by
  intro tracks
  induction tracks with
  | nil => intro idx t x hx; simp [getVisibleClips] at hx
  | cons tr rest ih =>
    intro idx t x hx
    unfold getVisibleClips at hx
    rw [List.mem_append] at hx
    rcases hx with hx | hx
    · by_cases hm : tr.isMuted = true
      · rw [if_pos hm] at hx; simp at hx
      · rw [if_neg hm] at hx
        rcases hf : tr.clips.find? (videoClipActiveAt t) with _ | c
        · rw [hf] at hx; simp at hx
        · rw [hf] at hx
          rw [List.mem_singleton] at hx
          rw [hx]
    · exact Nat.le_of_succ_le (ih (idx + 1) t x hx)

/-- The visible-clip list never contains two entries with the same track
index. -/
theorem getVisibleClips_pairwise_ne :
    ∀ (tracks : List VideoTrack) (idx : Nat) (t : ℚ),
      List.Pairwise (fun a b => a.2.2 ≠ b.2.2) (getVisibleClips tracks idx t) := by
  intro tracks
  induction tracks with
  | nil => intro idx t; simp [getVisibleClips]
  | cons tr rest ih =>
    intro idx t
    unfold getVisibleClips
    rw [List.pairwise_append]
    refine ⟨?_, ih (idx + 1) t, ?_⟩
    · by_cases hm : tr.isMuted = true
      · rw [if_pos hm]; exact List.Pairwise.nil
      · rw [if_neg hm]
        rcases tr.clips.find? (videoClipActiveAt t) with _ | c
        · exact List.Pairwise.nil
        · exact List.pairwise_singleton _ _
    · intro a ha b hb
      have hb2 : idx + 1 ≤ b.2.2 := getVisibleClips_index_ge rest (idx + 1) t b hb
      have ha2 : a.2.2 = idx := by
        by_cases hm : tr.isMuted = true
        · rw [if_pos hm] at ha; simp at ha
        · rw [if_neg hm] at ha
          rcases hf : tr.clips.find? (videoClipActiveAt t) with _ | c
          · rw [hf] at ha; simp at ha
          · rw [hf] at ha
            rw [List.mem_singleton] at ha
            rw [ha]
      omega

/-- The audio scan of the code equals the spec's words. -/
theorem getActiveAudioClip_eq_spec (tracks : List VideoTrack) (t : ℚ) :
    getActiveAudioClip tracks t = specAudioSelection tracks t := by
  induction tracks with
  | nil => rfl
  | cons tr rest ih =>
    unfold getActiveAudioClip specAudioSelection
    by_cases hm : tr.isMuted = true
    · rw [if_pos hm]
      simp only [List.filter_cons, hm, Bool.not_true, if_false]
      exact ih
    · rw [if_neg hm]
      have hm2 : tr.isMuted = false := by
        cases h : tr.isMuted
        · rfl
        · exact absurd h hm
      simp only [List.filter_cons, hm2, Bool.not_false, if_true, List.findSome?_cons]
      rcases hf : tr.clips.find? (audioClipActiveAt t) with _ | c
      · simpa using ih
      · rfl

/-- C9: the Active-Clip Resolver returns at most one clip per video track —
its visible-clip list never holds two entries with the same track index,
even when clips overlap on a track — and its audio component selects, with
no look-ahead, exactly the spec's "first non-muted timeline audio track in
track order owning a clip whose interval contains the current time":
at most one audio clip (an `Option`) is audible system-wide. -/
theorem active_clip_resolver_unique (s : EditorState) :
    List.Pairwise (fun a b => a.2.2 ≠ b.2.2) (getAllActiveClips s).1 ∧
    (getAllActiveClips s).2 = specAudioSelection s.timelineAudioTracks s.currentVideoTime :=
  ⟨getVisibleClips_pairwise_ne s.videoTracks 0 s.currentVideoTime,
   getActiveAudioClip_eq_spec s.timelineAudioTracks s.currentVideoTime⟩

/-! ### C10 — magnet-snap candidate ordering -/

/-- One snap step yields the running value, the clip's start, or the clip's
end. -/
theorem magnetSnapStep_cases (dragId : String) (thr acc : ℚ) (o : VideoClip) :
    magnetSnapStep dragId thr acc o = acc ∨
    magnetSnapStep dragId thr acc o = o.startTime ∨
    magnetSnapStep dragId thr acc o = o.startTime + o.duration := by
  unfold magnetSnapStep
  dsimp only
  split_ifs <;> first | (left; rfl) | (right; left; rfl) | (right; right; rfl)

/-- The snap fold ends at the untouched candidate or at a boundary of some
examined clip. -/
theorem magnet_foldl_cases (dragId : String) (thr : ℚ) :
    ∀ (clips : List VideoClip) (acc : ℚ),
      clips.foldl (magnetSnapStep dragId thr) acc = acc ∨
      ∃ o ∈ clips, clips.foldl (magnetSnapStep dragId thr) acc = o.startTime ∨
        clips.foldl (magnetSnapStep dragId thr) acc = o.startTime + o.duration := by
  intro clips
  induction clips with
  | nil => intro acc; left; rfl
  | cons o rest ih =>
    intro acc
    rw [List.foldl_cons]
    rcases ih (magnetSnapStep dragId thr acc o) with h | ⟨o2, ho2, h⟩
    · rw [h]
      rcases magnetSnapStep_cases dragId thr acc o with h2 | h2 | h2
      · left; exact h2
      · right; exact ⟨o, List.mem_cons_self o rest, Or.inl h2⟩
      · right; exact ⟨o, List.mem_cons_self o rest, Or.inr h2⟩
    · right
      exact ⟨o2, List.mem_cons_of_mem o ho2, h⟩

/-- Clip with end boundary 10.5 and start boundary 10. -/
def snapClipES : VideoClip := { sampleClip with id := "E", startTime := 10, duration := 1/2 }

/-- Clip with end boundary 31. -/
def snapClipI : VideoClip := { sampleClip with id := "I", startTime := 30, duration := 1 }

/-- Clip with start boundary 31.5. -/
def snapClipJ : VideoClip := { sampleClip with id := "J", startTime := 63/2, duration := 1 }

/-- Clip with end boundary 11. -/
def snapClipK : VideoClip := { sampleClip with id := "K", startTime := 10, duration := 1 }

/-- Clip with start boundary 12.5. -/
def snapClipL : VideoClip := { sampleClip with id := "L", startTime := 25/2, duration := 1 }

/-- C10: magnet-snap candidates are examined in clip iteration order, end
boundary before start boundary, each in-threshold hit overwriting the
current value, with a final snap-to-0; so the result is always 0, the raw
candidate, or a boundary of some examined clip (first conjunct).  With
threshold 1: a clip whose end (10.5) and start (10) both match lets the
later-tested start win; across clips the later hit wins (candidate 30.8
ends at 31.5, the last matching boundary, though 31 is nearer); and the
boundary nearest to the candidate (12.5, within threshold of 11.8) can
lose to an earlier snap (11) that moved the value out of range — the
result is the last *matching* boundary of the scan, not the nearest one;
an in-threshold-of-0 result is forced to 0. -/
theorem magnet_snap_last_match_order :
    (∀ (clips : List VideoClip) (dragId : String) (thr c : ℚ),
      applyMagnetSnap clips dragId thr c = 0 ∨ applyMagnetSnap clips dragId thr c = c ∨
      ∃ o ∈ clips, applyMagnetSnap clips dragId thr c = o.startTime ∨
        applyMagnetSnap clips dragId thr c = o.startTime + o.duration) ∧
    applyMagnetSnap [snapClipES] "drag" 1 (51/5) = 10 ∧
    applyMagnetSnap [snapClipI, snapClipJ] "drag" 1 (154/5) = 63/2 ∧
    (applyMagnetSnap [snapClipK, snapClipL] "drag" 1 (59/5) = 11 ∧
      snapClipL.startTime - 59/5 < 1 ∧
      snapClipL.startTime - 59/5 < 59/5 - 11) ∧
    applyMagnetSnap [] "drag" 1 (1/2) = 0 := by
  refine ⟨?_, ?_, ?_, ⟨?_, ?_, ?_⟩, ?_⟩
  · intro clips dragId thr c
    simp only [applyMagnetSnap]
    split_ifs with h
    · left; rfl
    · rcases magnet_foldl_cases dragId thr clips c with h2 | ⟨o, ho, h2⟩
      · right; left; exact h2
      · right; right; exact ⟨o, ho, h2⟩
  · have hE : ¬("E" = "drag") := by decide
    norm_num [applyMagnetSnap, magnetSnapStep, snapClipES, sampleClip, abs_lt, hE]
  · have hI : ¬("I" = "drag") := by decide
    have hJ : ¬("J" = "drag") := by decide
    norm_num [applyMagnetSnap, magnetSnapStep, snapClipI, snapClipJ, sampleClip,
      abs_lt, hI, hJ]
  · have hK : ¬("K" = "drag") := by decide
    have hL : ¬("L" = "drag") := by decide
    norm_num [applyMagnetSnap, magnetSnapStep, snapClipK, snapClipL, sampleClip,
      abs_lt, hK, hL]
  · norm_num [snapClipL, sampleClip]
  · norm_num [snapClipL, sampleClip]
  · norm_num [applyMagnetSnap]

end VideoEditor
